import Mathlib

/-!
Verification of the environment troubleshooter (matlab_proxy/util/troubleshooter.py)
against its natural-language specification.

The Python module is shallowly embedded: every function of the module becomes a
Lean definition of the same name.  Interaction with the operating system is made
explicit through parameters:
  * `which : String → Option String` models `shutil.which`;
  * `run : String → ProcBehavior` models the behaviour of the process spawned by
    `subprocess.run(cmd, shell=True, ...)` (its wall-clock duration, captured
    stdout/stderr text, and return code);
  * terminal state (`sys.stdout.isatty()`, `os.get_terminal_size().columns`),
    the `MWI_LOG_FILE` environment variable, `os.path.exists` and the file
    reader are fields of an `Env` record.
Python exceptions are modelled with `Except PyClass`, where `PyClass` carries
the exception-class hierarchy relevant to the module (`except TimeoutError`
catches a raised exception exactly when the raised class is a subclass of
builtin `TimeoutError`).  The ANSI icon constants are modelled in their POSIX
(`os.name != "nt"`) form.
-/

namespace Troubleshooter

/-- `GREEN_OK = "\033[32mOK\033[0m"` (POSIX branch of the `os.name` gate). -/
def GREEN_OK : String := "\x1b[32mOK\x1b[0m"

/-- `RED_X = "\033[31m X\033[0m"` (POSIX branch of the `os.name` gate). -/
def RED_X : String := "\x1b[31m X\x1b[0m"

/-- The dataclass `Report` (body, recommendations, has_error). -/
structure Report where
  body : String
  recommendations : String
  has_error : Bool
deriving DecidableEq, Repr

/-- `Report.__str__`: `"".join([self.body, self.recommendations])`. -/
def Report.str (r : Report) : String := r.body ++ r.recommendations

/-- Python renders `None` as the text `"None"` inside an f-string; a present
string renders as itself. -/
def pyStrOfOption : Option String → String
  | none => "None"
  | some s => s

/-- Which `__str__` method a result object carries: `cmd_output` (executable
lookup) or its subclass `cmd_only_output` (shell command), which overrides
`__str__`. -/
inductive CmdKind where
  | lookup
  | cmdOnly
deriving DecidableEq, Repr

/-- The dataclass `cmd_output` (and its subclass `cmd_only_output`, which adds
no fields).  `output` is `Option String` because `shutil.which` returns
`None` when the executable is absent. -/
structure cmd_output where
  kind : CmdKind
  command : String
  output : Option String
  isError : Bool
deriving DecidableEq, Repr

/-- Dynamic dispatch of `__str__`:
`cmd_output.__str__` is `f"{self.command} - {self.output} - {err_icon}\n"`,
`cmd_only_output.__str__` is `f"{self.output}\n"`. -/
def cmd_output.str (c : cmd_output) : String :=
  match c.kind with
  | CmdKind.lookup =>
    let err_icon := if c.isError then RED_X else GREEN_OK
    c.command ++ " - " ++ pyStrOfOption c.output ++ " - " ++ err_icon ++ "\n"
  | CmdKind.cmdOnly => pyStrOfOption c.output ++ "\n"

/-- The exception classes reachable from this module, with Python's class
hierarchy: builtin `TimeoutError <: OSError <: Exception`, and
`subprocess.TimeoutExpired <: subprocess.SubprocessError <: Exception`. -/
inductive PyClass where
  | pyException
  | osError
  | timeoutError
  | subprocessError
  | timeoutExpired
deriving DecidableEq, Repr

/-- The method-resolution ancestors of each class (the class itself included). -/
def ancestorClasses : PyClass → List PyClass
  | PyClass.pyException => [PyClass.pyException]
  | PyClass.osError => [PyClass.osError, PyClass.pyException]
  | PyClass.timeoutError =>
      [PyClass.timeoutError, PyClass.osError, PyClass.pyException]
  | PyClass.subprocessError => [PyClass.subprocessError, PyClass.pyException]
  | PyClass.timeoutExpired =>
      [PyClass.timeoutExpired, PyClass.subprocessError, PyClass.pyException]

/-- `isSubclass c d`: an `except d:` clause catches a raised instance of `c`. -/
def isSubclass (c d : PyClass) : Bool := (ancestorClasses c).contains d

/-- Behaviour of the process a shell command would spawn: how long it runs,
what it writes to stdout and stderr, and its exit code. -/
structure ProcBehavior where
  duration : Nat
  stdout : String
  stderr : String
  returncode : Int
deriving DecidableEq, Repr

/-- `subprocess.CompletedProcess` with `text=True`. -/
structure CompletedProcess where
  stdout : String
  stderr : String
  returncode : Int
deriving DecidableEq, Repr

/-- `subprocess.run(cmd, shell=True, capture_output=True, timeout=t, text=True)`:
raises `subprocess.TimeoutExpired` when the process outlives the timeout,
otherwise returns the completed process. -/
def subprocess_run (timeout : Nat) (b : ProcBehavior) : Except PyClass CompletedProcess :=
  if timeout < b.duration then Except.error PyClass.timeoutExpired
  else Except.ok (CompletedProcess.mk b.stdout b.stderr b.returncode)

/-- The `cmd_only_output` built from a completed process:
`cmd_only_output(cmd, stdout.strip() + stderr.strip(), True if stderr != "" else False)`. -/
def completed_output (cmd : String) (cp : CompletedProcess) : cmd_output :=
  cmd_output.mk CmdKind.cmdOnly cmd (some (cp.stdout.trim ++ cp.stderr.trim))
    (cp.stderr != "")

/-- One iteration of the loop in `exec_command`: the `try` block runs
`subprocess.run` with `timeout=10`; the `except TimeoutError` clause catches a
raised exception only when its class is a subclass of builtin `TimeoutError`;
an uncaught exception propagates. -/
def run_one (cmd : String) (b : ProcBehavior) : Except PyClass cmd_output :=
  match subprocess_run 10 b with
  | Except.ok completed_process => Except.ok (completed_output cmd completed_process)
  | Except.error e =>
    if isSubclass e PyClass.timeoutError then
      Except.ok (cmd_output.mk CmdKind.cmdOnly cmd (some (cmd ++ " command timed out!")) true)
    else Except.error e

/-- `exec_command(*args)`: run each command in order, appending each result to
the output list; an uncaught exception aborts the whole call. -/
def exec_command (run : String → ProcBehavior) (args : List String) :
    Except PyClass (List cmd_output) :=
  args.foldlM (fun acc cmd => (run_one cmd (run cmd)).map (fun o => acc ++ [o])) []

/-- `find_executable(*args)`: for each name, `path = shutil.which(name)` and
`cmd_output(name, path, True if path is None else False)`. -/
def find_executable (which : String → Option String) (args : List String) :
    List cmd_output :=
  args.map (fun name =>
    let path := which name
    cmd_output.mk CmdKind.lookup name path path.isNone)

/-- One iteration of the loop in `process_output`, acting on the state
`(body, error, err_recommendation)`:
`body = cmd_pair.__str__()`; `if cmd_pair.output is None: error = True`;
`if error and suppress_suggestions != True: err_recommendation = ...`. -/
def process_step (suppress_suggestions : Bool) (st : String × Bool × String)
    (cmd_pair : cmd_output) : String × Bool × String :=
  let body := cmd_pair.str
  let error := if cmd_pair.output = none then true else st.2.1
  let err_recommendation :=
    if error && (suppress_suggestions != true) then
      "Recommendation: " ++ cmd_pair.command ++ " is not installed. Please install "
        ++ cmd_pair.command ++ ".\n"
    else st.2.2
  (body, error, err_recommendation)

/-- `process_output(func, suppress_suggestions, *args)` applied to the result
list `func(*args)` (the probe functions are pure in the embedding, so the list
is passed directly).  Initial state `body = ""`, `error = False`,
`err_recommendation = ""`; returns `Report(body, err_recommendation, error)`. -/
def process_output (suppress_suggestions : Bool) (results : List cmd_output) : Report :=
  let st := results.foldl (process_step suppress_suggestions) ("", false, "")
  Report.mk st.1 st.2.2 st.2.1

/-- `process_output` applied to a probe function that can raise (namely
`exec_command`): a raised exception propagates through `process_output`. -/
def process_output_exc (suppress_suggestions : Bool)
    (res : Except PyClass (List cmd_output)) : Except PyClass Report :=
  res.map (process_output suppress_suggestions)

/-- `find_executable_and_version(cmd, suppress_suggestions)`: append the lookup
report; only when it has no error, run `f"{cmd} --version"` and append that
report too. -/
def find_executable_and_version (which : String → Option String)
    (run : String → ProcBehavior) (cmd : String) (suppress_suggestions : Bool) :
    Except PyClass (List Report) :=
  let rep := process_output suppress_suggestions (find_executable which [cmd])
  if rep.has_error = false then
    match process_output_exc suppress_suggestions
        (exec_command run [cmd ++ " --version"]) with
    | Except.ok version => Except.ok [rep, version]
    | Except.error e => Except.error e
  else
    Except.ok [rep]

/-- Python `str.ljust(width, fillchar)`. -/
def py_ljust (s : String) (width : Nat) (fill : Char) : String :=
  if width ≤ s.length then s
  else s ++ String.mk (List.replicate (width - s.length) fill)

/-- Python `str.center(width)` with the default space fill character
(CPython: `marg = width - len(s); left = marg // 2 + (marg & width & 1)`). -/
def py_center (s : String) (width : Nat) : String :=
  if width ≤ s.length then s
  else
    let marg := width - s.length
    let left := marg / 2 + (marg &&& width &&& 1)
    String.mk (List.replicate left ' ') ++ s ++ String.mk (List.replicate (marg - left) ' ')

/-- `prettify(boundary_filler, text_arr)`.  `stdout_isatty` models
`sys.stdout.isatty()` and `terminal_cols` models
`os.get_terminal_size().columns`; the non-interactive branch returns before the
terminal size is ever read, which the embedding reflects in the theorems by
independence from `terminal_cols`. -/
def prettify (stdout_isatty : Bool) (terminal_cols : Nat) (boundary_filler : Char)
    (text_arr : List String) : String :=
  if !stdout_isatty then
    "\n============================\n" ++ String.intercalate "\n" text_arr
      ++ "\n============================\n"
  else if text_arr.any (fun text => decide (terminal_cols < text.length)) then
    text_arr.foldl (fun result text => result ++ (text ++ "\n")) ""
  else
    let upper :=
      if text_arr.length > 0 then
        "\n" ++ py_ljust "" terminal_cols boundary_filler ++ "\n"
      else ""
    let lower :=
      if text_arr.length > 0 then py_ljust "" terminal_cols boundary_filler else ""
    let content :=
      text_arr.foldl (fun c text => c ++ (py_center text terminal_cols ++ "\n")) ""
    upper ++ content ++ lower

/-- The ambient state the module reads from the operating system. -/
structure Env where
  isatty : Bool
  cols : Nat
  which : String → Option String
  run : String → ProcBehavior
  platform_system : String
  platform_release : String
  platform_platform : String
  mwi_log_file : Option String
  path_exists : String → Bool
  read_lines : String → List String

/-- `generate_header(title)`: `str(prettify(boundary_filler="-", text_arr=[title])) + "\n"`. -/
def generate_header (e : Env) (title : String) : String :=
  prettify e.isatty e.cols '-' [title] ++ "\n"

/-- `os_info()`. -/
def os_info (e : Env) : Except PyClass String := do
  let header := generate_header e "OS information"
  let status := String.intercalate "\n"
    [e.platform_system, e.platform_release, e.platform_platform]
  let uname_op ← process_output_exc false (exec_command e.run ["uname -v"])
  return header ++ status ++ "\n" ++ uname_op.str

/-- `check_python_and_pip_installed()`. -/
def check_python_and_pip_installed (e : Env) : Except PyClass String := do
  let header := generate_header e "Python and pip executables"
  let outputs ← ["python", "pip", "python3"].mapM
    (fun cmd => find_executable_and_version e.which e.run cmd false)
  let flat_outputs := outputs.flatten
  return header ++ String.join (flat_outputs.map (fun op => op.str))

/-- `list_matlab()`. -/
def list_matlab (e : Env) : String :=
  let header := generate_header e "matlab executable"
  let rep := process_output false (find_executable e.which ["matlab"])
  header ++ rep.str

/-- The package-list filter command probed by `list_installed_packages`. -/
def pip_list_command : String :=
  "python -m pip list | grep -E \"jupyter|matlab-proxy|jupyter-matlab-proxy|notebook\""

/-- `list_installed_packages()`. -/
def list_installed_packages (e : Env) : Except PyClass String := do
  let header := generate_header e "Installed packages"
  let rep ← process_output_exc true (exec_command e.run [pip_list_command])
  return header ++ rep.str

/-- `list_jupyter_executable()`. -/
def list_jupyter_executable (e : Env) : String :=
  let header := generate_header e "jupyter executable"
  let rep := process_output false (find_executable e.which ["jupyter"])
  header ++ rep.str

/-- `list_matlab_proxy_on_path()`. -/
def list_matlab_proxy_on_path (e : Env) : String :=
  let header := generate_header e "matlab-proxy-app executable"
  let rep := process_output false (find_executable e.which ["matlab-proxy-app"])
  header ++ rep.str

/-- `list_env_vars()`. -/
def list_env_vars (e : Env) : Except PyClass String := do
  let header := generate_header e "Environment variables"
  let rep ← process_output_exc true (exec_command e.run ["env | grep -iE \"matlab|mw|mwi\""])
  return header ++ rep.str

/-- `list_server_extensions()`. -/
def list_server_extensions (e : Env) : Except PyClass String := do
  let header := generate_header e "Server extensions"
  let outputs ←
    ["jupyter serverextension list", "jupyter nbextension list",
      "jupyter labextension list"].mapM
      (fun cmd => process_output_exc false (exec_command e.run [cmd]))
  return header ++ String.join (outputs.map (fun op => op.str))

/-- `collect_logs_from_logfile()`: read `MWI_LOG_FILE`; only when it is set and
the file exists are its lines collected; the section is the header followed by
the lines joined with newlines. -/
def collect_logs_from_logfile (e : Env) : String :=
  let header := generate_header e "matlab proxy logs"
  let logs : List String :=
    match e.mwi_log_file with
    | none => []
    | some log_file => if e.path_exists log_file then e.read_lines log_file else []
  header ++ String.intercalate "\n" logs

/-- `list_conda_related_information()`. -/
def list_conda_related_information (e : Env) : Except PyClass String := do
  let header := generate_header e "Conda information"
  let outputs ← find_executable_and_version e.which e.run "conda" true
  let env_list ← process_output_exc true (exec_command e.run ["conda env list"])
  return header ++ String.join (outputs.map (fun op => op.str)) ++ env_list.str

/-- `print_environment_info()`: the concatenation order of the section strings,
exactly as the `output +=` lines of the source; the final `print(output)` is
modelled by returning the accumulated document. -/
def print_environment_info (e : Env) : Except PyClass String := do
  let o1 := list_matlab e
  let o2 := list_matlab_proxy_on_path e
  let o3 := list_jupyter_executable e
  let o4 ← check_python_and_pip_installed e
  let o5 ← os_info e
  let o6 ← list_conda_related_information e
  let o7 ← list_installed_packages e
  let o8 ← list_server_extensions e
  let o9 ← list_env_vars e
  let o10 := collect_logs_from_logfile e
  return o1 ++ o2 ++ o3 ++ o4 ++ o5 ++ o6 ++ o7 ++ o8 ++ o9 ++ o10

/-! ### Helper lemmas about the `process_output` loop -/

theorem process_step_error (sup : Bool) (st : String × Bool × String) (hd : cmd_output) :
    (process_step sup st hd).2.1 = (hd.output.isNone || st.2.1) := by
  simp only [process_step]
  cases hd.output <;> simp

theorem process_step_rec_of_error_false (sup : Bool) (st : String × Bool × String)
    (hd : cmd_output) (h : (process_step sup st hd).2.1 = false) :
    (process_step sup st hd).2.2 = st.2.2 := by
  have h2 : (if hd.output = none then true else st.2.1) = false := h
  simp [process_step, h2]

theorem process_fold_error (sup : Bool) (l : List cmd_output) (st : String × Bool × String) :
    (l.foldl (process_step sup) st).2.1
      = (st.2.1 || l.any (fun r => r.output.isNone)) := by
  induction l generalizing st with
  | nil => simp
  | cons hd tl ih =>
    rw [List.foldl_cons, ih, process_step_error, List.any_cons]
    generalize hd.output.isNone = a
    generalize st.2.1 = b
    generalize tl.any (fun r => r.output.isNone) = c
    cases a <;> cases b <;> cases c <;> rfl

theorem process_fold_rec_of_no_error (sup : Bool) (l : List cmd_output)
    (st : String × Bool × String) (h : (l.foldl (process_step sup) st).2.1 = false) :
    (l.foldl (process_step sup) st).2.2 = st.2.2 := by
  induction l generalizing st with
  | nil => rfl
  | cons hd tl ih =>
    rw [List.foldl_cons] at h ⊢
    have herr : (process_step sup st hd).2.1 = false := by
      rw [process_fold_error] at h
      exact (Bool.or_eq_false_iff.mp h).1
    rw [ih _ h]
    exact process_step_rec_of_error_false sup st hd herr

theorem process_fold_rec_suppressed (l : List cmd_output) (st : String × Bool × String) :
    (l.foldl (process_step true) st).2.2 = st.2.2 := by
  induction l generalizing st with
  | nil => rfl
  | cons hd tl ih =>
    rw [List.foldl_cons, ih]
    simp [process_step]

theorem run_one_completed (cmd : String) (b : ProcBehavior) (h : b.duration ≤ 10) :
    run_one cmd b
      = Except.ok (completed_output cmd (CompletedProcess.mk b.stdout b.stderr b.returncode)) := by
  have hlt : ¬ 10 < b.duration := Nat.not_lt.mpr h
  simp [run_one, subprocess_run, hlt]

/-! ### Claim theorems -/

/-- Claim C1, counterexample: a shell-command result with its error flag
(`isError`) set to true does not make `process_output` report `has_error`,
because the loop tests `cmd_pair.output is None` and a shell-command result
always carries a (possibly empty) output string. -/
theorem process_output_isError_ignored_cex :
    (cmd_output.mk CmdKind.cmdOnly "badcmd" (some "boom") true).isError = true ∧
    (process_output false
        [cmd_output.mk CmdKind.cmdOnly "badcmd" (some "boom") true]).has_error = false :=
  ⟨rfl, rfl⟩

/-- Claim C1, amended: the `has_error` flag of the report returned by
`process_output` is true exactly when some result in the sequence has its
`output` field equal to `None` (which, for executable lookups, coincides with
the error flag); the flag is sticky, being the disjunction over all results. -/
theorem process_output_has_error_eq (suppress_suggestions : Bool)
    (results : List cmd_output) :
    (process_output suppress_suggestions results).has_error
      = results.any (fun r => r.output.isNone) := by
  show (results.foldl (process_step suppress_suggestions) ("", false, "")).2.1 = _
  rw [process_fold_error]
  exact Bool.false_or _

/-- Claim C2 (code bug): a command whose process outlives the 10-unit timeout
makes `subprocess.run` raise `subprocess.TimeoutExpired`, which the
`except TimeoutError` clause does not catch (it is not a subclass of builtin
`TimeoutError`), so `exec_command` propagates the exception instead of
returning the synthetic "command timed out!" result built by the handler. -/
theorem exec_command_timeout_uncaught :
    exec_command (fun _ => ProcBehavior.mk 20 "" "" 0) ["sleep 20"]
      = Except.error PyClass.timeoutExpired ∧
    isSubclass PyClass.timeoutExpired PyClass.timeoutError = false ∧
    (cmd_output.mk CmdKind.cmdOnly "sleep 20"
        (some ("sleep 20" ++ " command timed out!")) true).output
      = some "sleep 20 command timed out!" :=
  ⟨rfl, rfl, rfl⟩

/-- Claim C4 (confirmed): for a command whose process completes within the
timeout, `exec_command` returns a result whose error flag is false exactly when
the stderr stream is empty, and the result does not depend on the process's
exit code. -/
theorem exec_command_error_iff_stderr (run : String → ProcBehavior) (cmd : String)
    (h : (run cmd).duration ≤ 10) :
    exec_command run [cmd] = Except.ok
        [completed_output cmd
          (CompletedProcess.mk (run cmd).stdout (run cmd).stderr (run cmd).returncode)] ∧
    ((completed_output cmd
          (CompletedProcess.mk (run cmd).stdout (run cmd).stderr (run cmd).returncode)).isError
        = false ↔ (run cmd).stderr = "") ∧
    ∀ rc : Int,
      run_one cmd (ProcBehavior.mk (run cmd).duration (run cmd).stdout (run cmd).stderr rc)
        = run_one cmd (run cmd) := by
  refine ⟨?_, ?_, ?_⟩
  · simp [exec_command, run_one_completed cmd (run cmd) h, Except.map]
  · simp [completed_output]
  · intro rc
    have h2 : (ProcBehavior.mk (run cmd).duration (run cmd).stdout (run cmd).stderr rc).duration
        ≤ 10 := h
    rw [run_one_completed _ _ h2, run_one_completed _ _ h]
    simp [completed_output]

/-- Witness for claim C4 at a concrete command: duration 1, stdout `"out"`,
empty stderr, exit code 3. -/
theorem exec_command_error_iff_stderr_witness :
    exec_command (fun _ => ProcBehavior.mk 1 "out" "" 3) ["false"] = Except.ok
        [completed_output "false" (CompletedProcess.mk "out" "" 3)] ∧
    ((completed_output "false" (CompletedProcess.mk "out" "" 3)).isError = false
        ↔ ("" : String) = "") ∧
    ∀ rc : Int,
      run_one "false" (ProcBehavior.mk 1 "out" "" rc)
        = run_one "false" (ProcBehavior.mk 1 "out" "" 3) :=
  exec_command_error_iff_stderr (fun _ => ProcBehavior.mk 1 "out" "" 3) "false" (by decide)

/-- Claim C5 (confirmed): the recommendation string of the report returned by
`process_output` is empty whenever `has_error` is false, and also whenever the
caller passed `suppress_suggestions = true`. -/
theorem process_output_recommendation_empty (suppress_suggestions : Bool)
    (results : List cmd_output)
    (h : (process_output suppress_suggestions results).has_error = false
        ∨ suppress_suggestions = true) :
    (process_output suppress_suggestions results).recommendations = "" := by
  rcases h with h | h
  · have h2 : (results.foldl (process_step suppress_suggestions) ("", false, "")).2.1
        = false := h
    show (results.foldl (process_step suppress_suggestions) ("", false, "")).2.2 = ""
    rw [process_fold_rec_of_no_error suppress_suggestions results _ h2]
  · subst h
    show (results.foldl (process_step true) ("", false, "")).2.2 = ""
    rw [process_fold_rec_suppressed]

/-- Witness for claim C5: suppression requested on a failing lookup result
still yields an empty recommendation. -/
theorem process_output_recommendation_empty_witness :
    (process_output true [cmd_output.mk CmdKind.lookup "matlab" none true]).recommendations
      = "" :=
  process_output_recommendation_empty true
    [cmd_output.mk CmdKind.lookup "matlab" none true] (Or.inr rfl)

/-- Claim C10 (confirmed): an executable-lookup result renders as the command
name, the rendered path, and a status icon joined by `" - "` and terminated by
a newline; a shell-command result renders as only its output followed by a
newline, independent of its command string and error flag. -/
theorem cmd_output_str_shapes (c : String) (p : Option String) (b : Bool)
    (c2 : String) (b2 : Bool) :
    (cmd_output.mk CmdKind.lookup c p b).str
      = c ++ " - " ++ pyStrOfOption p ++ " - " ++ (if b then RED_X else GREEN_OK) ++ "\n" ∧
    (cmd_output.mk CmdKind.cmdOnly c p b).str = pyStrOfOption p ++ "\n" ∧
    (cmd_output.mk CmdKind.cmdOnly c p b).str = (cmd_output.mk CmdKind.cmdOnly c2 p b2).str :=
  ⟨rfl, rfl, rfl⟩

theorem string_join_nil : String.join ([] : List String) = "" := rfl

theorem string_intercalate_nil (s : String) : s.intercalate [] = "" := rfl

theorem string_join_cons (a : String) (l : List String) :
    String.join (a :: l) = a ++ String.join l := by
  apply String.ext
  simp

theorem foldl_append_eq_join (l : List String) (s : String) :
    l.foldl (fun result text => result ++ (text ++ "\n")) s
      = s ++ String.join (l.map (fun text => text ++ "\n")) := by
  induction l generalizing s with
  | nil => rw [List.foldl_nil, List.map_nil, string_join_nil, String.append_empty]
  | cons hd tl ih =>
    rw [List.foldl_cons, ih, List.map_cons, string_join_cons, String.append_assoc]

/-- Claim C6 (confirmed): with a non-interactive output destination, `prettify`
returns the text blocks joined one per line between two literal lines of 28
`=` characters, and the result never depends on the terminal geometry. -/
theorem prettify_non_interactive (terminal_cols : Nat) (boundary_filler : Char)
    (text_arr : List String) :
    prettify false terminal_cols boundary_filler text_arr
      = "\n============================\n" ++ String.intercalate "\n" text_arr
        ++ "\n============================\n" ∧
    ("============================" : String) = String.mk (List.replicate 28 '=') ∧
    ∀ cols2 : Nat,
      prettify false cols2 boundary_filler text_arr
        = prettify false terminal_cols boundary_filler text_arr :=
  ⟨rfl, by decide, fun cols2 => rfl⟩

/-- Claim C7 (confirmed): when rendering interactively and some text block is
wider than the terminal columns, `prettify` returns each block on its own line
with no padding and no framing lines. -/
theorem prettify_overflow_unframed (terminal_cols : Nat) (boundary_filler : Char)
    (text_arr : List String)
    (h : text_arr.any (fun text => decide (terminal_cols < text.length)) = true) :
    prettify true terminal_cols boundary_filler text_arr
      = String.join (text_arr.map (fun text => text ++ "\n")) := by
  simp only [prettify]
  rw [if_neg (by decide), if_pos h, foldl_append_eq_join, String.empty_append]

/-- Witness for claim C7: the singleton block `"abcdef"` on a 3-column
terminal renders as exactly the one line `"abcdef\n"`. -/
theorem prettify_overflow_unframed_witness :
    prettify true 3 ' ' ["abcdef"] = "abcdef\n" :=
  (prettify_overflow_unframed 3 ' ' ["abcdef"] (by decide)).trans (by decide)

/-- Claim C8 (confirmed): when the log-file environment variable is unset, or
it names a path that does not exist, `collect_logs_from_logfile` returns the
section header with an empty body (and, being total, raises nothing). -/
theorem collect_logs_missing_file (e : Env)
    (h : ∀ f, e.mwi_log_file = some f → e.path_exists f = false) :
    collect_logs_from_logfile e = generate_header e "matlab proxy logs" := by
  cases hm : e.mwi_log_file with
  | none => simp [collect_logs_from_logfile, hm, string_intercalate_nil]
  | some f => simp [collect_logs_from_logfile, hm, h f hm, string_intercalate_nil]

/-- Witness for claim C8: an environment with `MWI_LOG_FILE` unset. -/
theorem collect_logs_missing_file_witness :
    collect_logs_from_logfile
        (Env.mk false 80 (fun _ => none) (fun _ => ProcBehavior.mk 0 "" "" 0)
          "Linux" "rel" "plat" none (fun _ => false) (fun _ => []))
      = generate_header
          (Env.mk false 80 (fun _ => none) (fun _ => ProcBehavior.mk 0 "" "" 0)
            "Linux" "rel" "plat" none (fun _ => false) (fun _ => []))
          "matlab proxy logs" :=
  collect_logs_missing_file _ (fun _ hf => Option.noConfusion hf)

theorem except_bind_ok {α β : Type} (a : α) (f : α → Except PyClass β) :
    (Except.ok a >>= f) = f a := rfl

theorem except_bind_error {α β : Type} (e : PyClass) (f : α → Except PyClass β) :
    ((Except.error e : Except PyClass α) >>= f) = Except.error e := rfl

theorem except_map_ok {α β : Type} (a : α) (f : α → β) :
    (Except.ok a : Except PyClass α).map f = Except.ok (f a) := rfl

theorem except_pure_eq {α : Type} (a : α) :
    (pure a : Except PyClass α) = Except.ok a := rfl

theorem exec_command_singleton (run : String → ProcBehavior) (cmd : String)
    (h : (run cmd).duration ≤ 10) :
    exec_command run [cmd] = Except.ok
      [completed_output cmd
        (CompletedProcess.mk (run cmd).stdout (run cmd).stderr (run cmd).returncode)] := by
  simp [exec_command, run_one_completed cmd (run cmd) h, Except.map]

/-- Claim C9 (confirmed): `find_executable_and_version` returns a one-element
list holding only the lookup report when that lookup reports an error — and in
that case never consults the command runner, so `--version` is not executed —
and a two-element list of the lookup report followed by the `--version` command
report when the lookup succeeds (the `--version` process being assumed to
finish within the timeout). -/
theorem find_executable_and_version_shape (which : String → Option String)
    (run : String → ProcBehavior) (cmd : String) (suppress_suggestions : Bool)
    (h : (run (cmd ++ " --version")).duration ≤ 10) :
    ((process_output suppress_suggestions (find_executable which [cmd])).has_error = true →
      ∀ run2 : String → ProcBehavior,
        find_executable_and_version which run2 cmd suppress_suggestions
          = Except.ok [process_output suppress_suggestions (find_executable which [cmd])]) ∧
    ((process_output suppress_suggestions (find_executable which [cmd])).has_error = false →
      find_executable_and_version which run cmd suppress_suggestions
        = Except.ok [process_output suppress_suggestions (find_executable which [cmd]),
            process_output suppress_suggestions
              [completed_output (cmd ++ " --version")
                (CompletedProcess.mk (run (cmd ++ " --version")).stdout
                  (run (cmd ++ " --version")).stderr
                  (run (cmd ++ " --version")).returncode)]]) := by
  constructor
  · intro herr run2
    simp [find_executable_and_version, herr]
  · intro hok
    simp [find_executable_and_version, hok, process_output_exc,
      exec_command_singleton run (cmd ++ " --version") h, Except.map]

/-- Witness for claim C9: a lookup that fails (`which` finds nothing) yields
the one-element list, with an arbitrary runner. -/
theorem find_executable_and_version_shape_witness :
    find_executable_and_version (fun _ => none) (fun _ => ProcBehavior.mk 0 "" "" 0)
        "python" false
      = Except.ok [process_output false (find_executable (fun _ => none) ["python"])] :=
  (find_executable_and_version_shape (fun _ => none) (fun _ => ProcBehavior.mk 0 "" "" 0)
      "python" false (by decide)).1 (by decide) (fun _ => ProcBehavior.mk 0 "" "" 0)

/-- The report produced by `process_output` over a single shell command whose
process completed (abbreviation used to state the section-evaluation lemmas). -/
def completed_report (sup : Bool) (run : String → ProcBehavior) (c : String) : Report :=
  process_output sup
    [completed_output c
      (CompletedProcess.mk (run c).stdout (run c).stderr (run c).returncode)]

theorem process_output_exc_singleton (sup : Bool) (run : String → ProcBehavior)
    (c : String) (h : (run c).duration ≤ 10) :
    process_output_exc sup (exec_command run [c])
      = Except.ok (completed_report sup run c) := by
  rw [process_output_exc, exec_command_singleton run c h, except_map_ok]
  rfl

/-- The list of reports `find_executable_and_version` produces when the
`--version` process completes (abbreviation for the lemmas below). -/
def fev_value (which : String → Option String) (run : String → ProcBehavior)
    (cmd : String) (sup : Bool) : List Report :=
  let rep := process_output sup (find_executable which [cmd])
  if rep.has_error = false then [rep, completed_report sup run (cmd ++ " --version")]
  else [rep]

theorem find_executable_and_version_eq (which : String → Option String)
    (run : String → ProcBehavior) (cmd : String) (sup : Bool)
    (h : (run (cmd ++ " --version")).duration ≤ 10) :
    find_executable_and_version which run cmd sup
      = Except.ok (fev_value which run cmd sup) := by
  simp only [find_executable_and_version, fev_value,
    process_output_exc_singleton sup run (cmd ++ " --version") h]
  by_cases hc : (process_output sup (find_executable which [cmd])).has_error = false
  · simp [hc]
  · simp [hc]

theorem os_info_eq (e : Env) (h : ∀ c, (e.run c).duration ≤ 10) :
    os_info e = Except.ok (generate_header e "OS information"
      ++ String.intercalate "\n"
          [e.platform_system, e.platform_release, e.platform_platform]
      ++ "\n" ++ (completed_report false e.run "uname -v").str) := by
  simp only [os_info, process_output_exc_singleton false e.run "uname -v" (h "uname -v"),
    except_bind_ok, except_pure_eq]

theorem check_python_and_pip_installed_eq (e : Env) (h : ∀ c, (e.run c).duration ≤ 10) :
    check_python_and_pip_installed e
      = Except.ok (generate_header e "Python and pip executables"
        ++ String.join (([fev_value e.which e.run "python" false,
              fev_value e.which e.run "pip" false,
              fev_value e.which e.run "python3" false].flatten).map
            (fun op => op.str))) := by
  have hrule : ∀ cmd, find_executable_and_version e.which e.run cmd false
      = Except.ok (fev_value e.which e.run cmd false) :=
    fun cmd => find_executable_and_version_eq e.which e.run cmd false (h _)
  simp only [check_python_and_pip_installed, List.mapM_cons, List.mapM_nil, hrule,
    except_bind_ok, except_pure_eq]

theorem list_conda_related_information_eq (e : Env) (h : ∀ c, (e.run c).duration ≤ 10) :
    list_conda_related_information e = Except.ok (generate_header e "Conda information"
      ++ String.join ((fev_value e.which e.run "conda" true).map (fun op => op.str))
      ++ (completed_report true e.run "conda env list").str) := by
  simp only [list_conda_related_information,
    find_executable_and_version_eq e.which e.run "conda" true (h _),
    process_output_exc_singleton true e.run "conda env list" (h _),
    except_bind_ok, except_pure_eq]

theorem list_installed_packages_eq (e : Env) (h : ∀ c, (e.run c).duration ≤ 10) :
    list_installed_packages e = Except.ok (generate_header e "Installed packages"
      ++ (completed_report true e.run pip_list_command).str) := by
  simp only [list_installed_packages,
    process_output_exc_singleton true e.run pip_list_command (h _),
    except_bind_ok, except_pure_eq]

theorem list_server_extensions_eq (e : Env) (h : ∀ c, (e.run c).duration ≤ 10) :
    list_server_extensions e = Except.ok (generate_header e "Server extensions"
      ++ String.join ([completed_report false e.run "jupyter serverextension list",
          completed_report false e.run "jupyter nbextension list",
          completed_report false e.run "jupyter labextension list"].map
          (fun op => op.str))) := by
  have hrule : ∀ c, process_output_exc false (exec_command e.run [c])
      = Except.ok (completed_report false e.run c) :=
    fun c => process_output_exc_singleton false e.run c (h c)
  simp only [list_server_extensions, List.mapM_cons, List.mapM_nil, hrule,
    except_bind_ok, except_pure_eq]

theorem list_env_vars_eq (e : Env) (h : ∀ c, (e.run c).duration ≤ 10) :
    list_env_vars e = Except.ok (generate_header e "Environment variables"
      ++ (completed_report true e.run "env | grep -iE \"matlab|mw|mwi\"").str) := by
  simp only [list_env_vars,
    process_output_exc_singleton true e.run "env | grep -iE \"matlab|mw|mwi\"" (h _),
    except_bind_ok, except_pure_eq]

/-- A concrete environment: non-interactive stdout, nothing on the search
path, every process finishes instantly with empty output, no log file. -/
def eC : Env :=
  Env.mk false 80 (fun _ => none) (fun _ => ProcBehavior.mk 0 "" "" 0)
    "Linux" "rel" "plat" none (fun _ => false) (fun _ => [])

/-- Claim C3, counterexample: at the concrete environment `eC` the emitted
document begins with the "matlab executable" section, not with the
"OS information" section, so the claimed order (OS info first, then
interpreter probes, and so on) is not the order the code emits. -/
theorem print_environment_info_order_cex :
    (match print_environment_info eC with
      | Except.ok s => s.data.take 40
      | Except.error _ => []) = (list_matlab eC).data.take 40 ∧
    ¬ ((match print_environment_info eC with
      | Except.ok s => s.data.take 40
      | Except.error _ => []) = (generate_header eC "OS information").data.take 40) := by
  exact ⟨rfl, by decide⟩

/-- Claim C3, amended: when no probed command exceeds the timeout, the
document is emitted as the concatenation of the sections in exactly this fixed
order: matlab executable lookup, matlab-proxy-app executable lookup, jupyter
executable lookup, python/pip executables with versions, OS information, conda
information (presence, version and environment listing), installed-packages
filter, the three server-extension listings, the environment-variable filter,
and the log-file read; the whole document is handed to the single final
write. -/
theorem print_environment_info_order (e : Env) (h : ∀ c, (e.run c).duration ≤ 10) :
    ∃ s4 s5 s6 s7 s8 s9 : String,
      check_python_and_pip_installed e = Except.ok s4 ∧
      os_info e = Except.ok s5 ∧
      list_conda_related_information e = Except.ok s6 ∧
      list_installed_packages e = Except.ok s7 ∧
      list_server_extensions e = Except.ok s8 ∧
      list_env_vars e = Except.ok s9 ∧
      print_environment_info e = Except.ok
        (list_matlab e ++ list_matlab_proxy_on_path e ++ list_jupyter_executable e
          ++ s4 ++ s5 ++ s6 ++ s7 ++ s8 ++ s9 ++ collect_logs_from_logfile e) := by
  refine ⟨_, _, _, _, _, _, check_python_and_pip_installed_eq e h, os_info_eq e h,
    list_conda_related_information_eq e h, list_installed_packages_eq e h,
    list_server_extensions_eq e h, list_env_vars_eq e h, ?_⟩
  simp only [print_environment_info, check_python_and_pip_installed_eq e h, os_info_eq e h,
    list_conda_related_information_eq e h, list_installed_packages_eq e h,
    list_server_extensions_eq e h, list_env_vars_eq e h, except_bind_ok, except_pure_eq]

/-- Witness for claim C3's amended statement at the concrete environment
`eC`, where every process finishes instantly. -/
theorem print_environment_info_order_witness :
    ∃ s4 s5 s6 s7 s8 s9 : String,
      check_python_and_pip_installed eC = Except.ok s4 ∧
      os_info eC = Except.ok s5 ∧
      list_conda_related_information eC = Except.ok s6 ∧
      list_installed_packages eC = Except.ok s7 ∧
      list_server_extensions eC = Except.ok s8 ∧
      list_env_vars eC = Except.ok s9 ∧
      print_environment_info eC = Except.ok
        (list_matlab eC ++ list_matlab_proxy_on_path eC ++ list_jupyter_executable eC
          ++ s4 ++ s5 ++ s6 ++ s7 ++ s8 ++ s9 ++ collect_logs_from_logfile eC) :=
  print_environment_info_order eC (fun _ => Nat.zero_le 10)

end Troubleshooter
